import Mathlib

/-!
Shallow embedding of the AirGo panel API client
(`api/airgo/airgo.go` of XrayR_For_AirGo), covering the config-translator
(`ParseAirGoNodeInfo`, `calculateSpeedLimit`, the user-list mapping of
`GetUserList`), the conditional-fetch cache (`updateETag`, the 304 path of
`GetNodeInfo`), and the online-user grouping of `ReportNodeOnlineUsers`.

Modelling conventions:
* Go strings are `String`, Go `bool` is `Bool`, Go integer fields are `Int`
  or `Nat` as noted at each field.
* Go `float64` values are modelled as exact rationals (`Rat`); the Go
  conversion `uint64(f)` of a nonnegative float is truncation toward zero,
  modelled as `Int.toNat ∘ Int.floor` (which agrees with truncation toward
  zero on nonnegative arguments).
* Go multiple return `(*T, error)` is a pair `T × Option String`
  (`none` = nil error); nil pointers become `Option.none`.
* The Go map `map[string]string` backing the ETag cache is an association
  list; the Go map `map[int][]string` built by `ReportNodeOnlineUsers` is a
  total function `Int → List String` (a missing key reads as the nil slice,
  i.e. `[]`), exactly matching Go map-read semantics.
-/

namespace AirGo

/-- `api.REALITYConfig` of the external XrayR api package, with exactly the
fields populated by `ParseAirGoNodeInfo`; Go zero values are the defaults. -/
structure REALITYConfig where
  Dest : String := ""
  ProxyProtocolVer : Nat := 0
  ServerNames : List String := []
  PrivateKey : String := ""
  MinClientVer : String := ""
  MaxClientVer : String := ""
  MaxTimeDiff : Nat := 0
  ShortIds : List String := []
deriving DecidableEq, Repr

/-- The camouflage-header structure `ParseAirGoNodeInfo` builds as a
`map[string]any` and serializes with `json.Marshal`:
`{type: "http", request: {path: [P], headers: {Host: [H]}}}`.  The blob is
modelled structurally (the serialized bytes carry exactly these fields). -/
structure HttpHeader where
  type : String
  requestPath : List String
  requestHeadersHost : List String
deriving DecidableEq, Repr

/-- `api.NodeInfo` of the external XrayR api package, with exactly the fields
populated by `ParseAirGoNodeInfo`; Go zero values are the defaults
(`REALITYConfig` and `Header` are pointer/`json.RawMessage` fields, zero =
nil = `none`). -/
structure NodeInfo where
  EnableVless : Bool := false
  VlessFlow : String := ""
  NodeType : String := ""
  NodeID : Int := 0
  Port : Nat := 0
  SpeedLimit : Nat := 0
  AlterID : Nat := 0
  TransportProtocol : String := ""
  EnableTLS : Bool := false
  Path : String := ""
  Host : String := ""
  CypherMethod : String := ""
  ServiceName : String := ""
  ServerKey : String := ""
  EnableREALITY : Bool := false
  REALITYConfig : Option REALITYConfig := none
  Header : Option HttpHeader := none
deriving DecidableEq, Repr

/-- Modelled from the spec: the Panel Node Descriptor (`NodeInfoResponse`),
whose Go declaration lives in a model file not present under `src/`.  Field
names are taken from their uses in `ParseAirGoNodeInfo`; per the spec the
per-node speed limit is a float (mbps), modelled as `Rat`, and the port is a
numeric field, modelled as `Nat`.  The Go field `Type` (camouflage type) is
spelled `Type'` because `Type` is reserved in Lean. -/
structure NodeInfoResponse where
  Protocol : String := ""
  Network : String := ""
  Security : String := ""
  Port : Nat := 0
  NodeSpeedLimit : Rat := 0
  Path : String := ""
  Host : String := ""
  ServiceName : String := ""
  Type' : String := ""
  Dest : String := ""
  Sni : String := ""
  PrivateKey : String := ""
  Scy : String := ""
  ServerKey : String := ""
  VlessFlow : String := ""
deriving DecidableEq, Repr

/-- Modelled from the spec: the Panel User Descriptor (`UserResponse`), whose
Go declaration is not present under `src/`.  `NodeSpeedLimit` is forced to an
integer (`int64`) by the signature of `calculateSpeedLimit` in the source;
the other field names/types follow their uses in `GetUserList`. -/
structure UserResponse where
  ID : Int := 0
  UUID : String := ""
  UserName : String := ""
  Passwd : String := ""
  NodeSpeedLimit : Int := 0
  NodeConnector : Int := 0
deriving DecidableEq, Repr

/-- `api.UserInfo` of the external XrayR api package, fields as populated by
`GetUserList`. -/
structure UserInfo where
  UID : Int := 0
  UUID : String := ""
  Email : String := ""
  Passwd : String := ""
  SpeedLimit : Nat := 0
  DeviceLimit : Int := 0
deriving DecidableEq, Repr

/-- The pure session state of `APIClient` that the translated operations
read: node identity, defaults, and the ETag table (`eTags`). -/
structure APIClient where
  NodeID : Int := 0
  NodeType : String := ""
  EnableVless : Bool := false
  VlessFlow : String := ""
  SpeedLimit : Rat := 0
  DeviceLimit : Int := 0
  eTags : List (String × String) := []
deriving DecidableEq, Repr

/-- Go's `uint64(f)` applied to a nonnegative float expression: truncation
toward zero, which on nonnegative rationals is the floor.  (Negative or
overflowing conversions do not occur in the translated code paths.) -/
def uint64OfRat (q : Rat) : Nat := (⌊q⌋).toNat

/-- Go's `uint32(n.Port)` conversion on the nonnegative port number. -/
def uint32OfNat (x : Nat) : Nat := x % 4294967296

/-- `calculateSpeedLimit` (airgo.go lines 178-183): per-user/per-node speed
limit in bytes/sec, `uint64((float64(nodeSpeedLimit)*1000000)/8)` when the
override is positive, else the same formula on the session default. -/
def calculateSpeedLimit (nodeSpeedLimit : Int) (defaultSpeedLimit : Rat) : Nat :=
  if nodeSpeedLimit > 0 then
    uint64OfRat ((nodeSpeedLimit : Rat) * 1000000 / 8)
  else
    uint64OfRat (defaultSpeedLimit * 1000000 / 8)

/-- The `map[string]any` camouflage header built in the `n.Type == "http"`
branches of `ParseAirGoNodeInfo`. -/
def mkCamouflageHeader (path host : String) : HttpHeader :=
  { type := "http", requestPath := [path], requestHeadersHost := [host] }

/-- The `speedLimit` local of `ParseAirGoNodeInfo` (airgo.go lines 199-203):
per-node override when positive, else the session default, through the
mbps → bytes/sec conversion. -/
def parseSpeedLimit (c : APIClient) (n : NodeInfoResponse) : Nat :=
  if n.NodeSpeedLimit > 0 then
    uint64OfRat (n.NodeSpeedLimit * 1000000 / 8)
  else
    uint64OfRat (c.SpeedLimit * 1000000 / 8)

/-- The `enableTLS` local of `ParseAirGoNodeInfo` (lines 193, 204-206):
initialized `true`, forced `false` by security `"none"` or `""`. -/
def parseEnableTLS (n : NodeInfoResponse) : Bool :=
  if n.Security == "none" || n.Security == "" then false else true

/-- The `enableREALITY` local of `ParseAirGoNodeInfo` (lines 194, 207-208):
`true` exactly for security `"reality"`. -/
def parseEnableREALITY (n : NodeInfoResponse) : Bool :=
  n.Security == "reality"

/-- The `realityConfig` local of `ParseAirGoNodeInfo` (lines 195, 209-219):
the empty config, overwritten for security `"reality"`. -/
def parseRealityConfig (n : NodeInfoResponse) : REALITYConfig :=
  if n.Security == "reality" then
    { Dest := n.Dest
      ProxyProtocolVer := 0
      ServerNames := [n.Sni]
      PrivateKey := n.PrivateKey
      MinClientVer := ""
      MaxClientVer := ""
      MaxTimeDiff := 0
      ShortIds := ["", "0123456789abcdef"] }
  else {}

/-- The `case "vless", "Vless"` branch of `ParseAirGoNodeInfo` (lines
222-259); the inner `switch n.Network` with empty `grpc`/`ws` cases sets the
camouflage header exactly when `n.Network == "tcp" && n.Type == "http"`. -/
def vlessNodeInfo (c : APIClient) (n : NodeInfoResponse) : NodeInfo :=
  let base : NodeInfo :=
    { EnableVless := true
      VlessFlow := n.VlessFlow
      NodeType := c.NodeType
      NodeID := c.NodeID
      Port := uint32OfNat n.Port
      SpeedLimit := parseSpeedLimit c n
      TransportProtocol := n.Network
      EnableTLS := parseEnableTLS n
      Path := n.Path
      Host := n.Host
      ServiceName := n.ServiceName
      EnableREALITY := parseEnableREALITY n
      REALITYConfig := some (parseRealityConfig n) }
  if n.Network == "tcp" && n.Type' == "http" then
    { base with Header := some (mkCamouflageHeader n.Path n.Host) }
  else base

/-- The `case "vmess", "Vmess"` branch of `ParseAirGoNodeInfo` (lines
260-297); note it does not populate the `REALITYConfig` pointer. -/
def vmessNodeInfo (c : APIClient) (n : NodeInfoResponse) : NodeInfo :=
  let base : NodeInfo :=
    { EnableVless := false
      NodeType := c.NodeType
      NodeID := c.NodeID
      Port := uint32OfNat n.Port
      SpeedLimit := parseSpeedLimit c n
      AlterID := 0
      TransportProtocol := n.Network
      EnableTLS := parseEnableTLS n
      Path := n.Path
      Host := n.Host
      CypherMethod := n.Scy
      ServiceName := n.ServiceName
      EnableREALITY := parseEnableREALITY n }
  if n.Network == "tcp" && n.Type' == "http" then
    { base with Header := some (mkCamouflageHeader n.Path n.Host) }
  else base

/-- The `case "Shadowsocks", "shadowsocks"` branch of `ParseAirGoNodeInfo`
(lines 298-324): transport hard-coded `"tcp"`, no TLS/REALITY fields, and
the camouflage-type check is not guarded by the network field. -/
def shadowsocksNodeInfo (c : APIClient) (n : NodeInfoResponse) : NodeInfo :=
  let base : NodeInfo :=
    { NodeType := c.NodeType
      NodeID := c.NodeID
      Port := uint32OfNat n.Port
      SpeedLimit := parseSpeedLimit c n
      TransportProtocol := "tcp"
      CypherMethod := n.Scy
      ServerKey := n.ServerKey }
  if n.Type' == "http" then
    { base with Header := some (mkCamouflageHeader n.Path n.Host) }
  else base

/-- `ParseAirGoNodeInfo` (airgo.go lines 190-327): translates a panel node
descriptor plus client defaults into a normalized `api.NodeInfo` via the
`switch n.Protocol` dispatch; the default case leaves `nodeInfo` at its zero
value.  Returns the Go pair `(*api.NodeInfo, error)`; the source always
returns `(&nodeInfo, nil)`. -/
def ParseAirGoNodeInfo (c : APIClient) (n : NodeInfoResponse) :
    NodeInfo × Option String :=
  let nodeInfo : NodeInfo :=
    if n.Protocol == "vless" || n.Protocol == "Vless" then
      vlessNodeInfo c n
    else if n.Protocol == "vmess" || n.Protocol == "Vmess" then
      vmessNodeInfo c n
    else if n.Protocol == "Shadowsocks" || n.Protocol == "shadowsocks" then
      shadowsocksNodeInfo c n
    else {}
  (nodeInfo, none)

/-- Go map read `m[key]` on the `map[string]string` ETag table: the stored
value, or the zero string when the key is absent. -/
def lookupETag : List (String × String) → String → String
  | [], _ => ""
  | (k', v') :: rest, key => if k' = key then v' else lookupETag rest key

/-- Go map write `m[key] = v`: replace the binding if present, else add it. -/
def storeETag (eTags : List (String × String)) (key v : String) :
    List (String × String) :=
  match eTags with
  | [] => [(key, v)]
  | (k', v') :: rest =>
      if k' = key then (key, v) :: rest else (k', v') :: storeETag rest key v

/-- `updateETag` (airgo.go lines 99-104): store the response `Etag` header
under `key` only when it is non-empty and differs from the stored value.
`etag` is `res.Header().Get("Etag")` (the zero string when absent). -/
def updateETag (eTags : List (String × String)) (etag : String) (key : String) :
    List (String × String) :=
  if etag ≠ "" ∧ etag ≠ lookupETag eTags key then storeETag eTags key etag
  else eTags

/-- The `api.NodeNotModified` sentinel wrapped in `errors.New` by
`GetNodeInfo` on a 304 response. -/
def NodeNotModified : String := "NodeNotModified"

/-- An HTTP response as `GetNodeInfo`/`GetUserList` consume it: status code,
the `Etag` header (zero string when absent), and the body already split on
decodability (`none` = `json.Unmarshal` fails, `some` = the decoded value). -/
structure RestyResponse (β : Type) where
  statusCode : Int
  etag : String
  body : Option β

/-- The response-processing logic of `GetNodeInfo` (airgo.go lines 107-135)
after the HTTP GET: a 304 returns the `NodeNotModified` sentinel and leaves
the session untouched; otherwise the ETag table is updated, the body is
decoded, and `ParseAirGoNodeInfo` runs.  Result: the updated session and the
Go pair `(*api.NodeInfo, error)` as `Except`. -/
def GetNodeInfo (c : APIClient) (res : RestyResponse NodeInfoResponse) :
    APIClient × Except String NodeInfo :=
  if res.statusCode = 304 then
    (c, .error NodeNotModified)
  else
    let c' : APIClient := { c with eTags := updateETag c.eTags res.etag "node" }
    match res.body with
    | none => (c', .error "failed to unmarshal node info")
    | some nodeInfoResponse =>
        match ParseAirGoNodeInfo c' nodeInfoResponse with
        | (nodeInfo, none) => (c', .ok nodeInfo)
        | (_, some e) => (c', .error ("parse node info failed: " ++ e))

/-- The per-user translation in the body of `GetUserList`'s loop
(airgo.go lines 163-172). -/
def userInfoOfResponse (c : APIClient) (v : UserResponse) : UserInfo :=
  { UID := v.ID
    UUID := v.UUID
    Email := v.UserName
    Passwd := v.Passwd
    SpeedLimit := calculateSpeedLimit v.NodeSpeedLimit c.SpeedLimit
    DeviceLimit := v.NodeConnector }

/-- The user-list translation of `GetUserList` (airgo.go lines 162-173):
`userInfo := make([]api.UserInfo, len(userResponse))` filled index by index
from the corresponding descriptor. -/
def mapUserList (c : APIClient) (userResponse : List UserResponse) :
    List UserInfo :=
  userResponse.map (userInfoOfResponse c)

/-- `api.OnlineUser` observation consumed by `ReportNodeOnlineUsers`. -/
structure OnlineUserObs where
  UID : Int
  IP : String
deriving DecidableEq, Repr

/-- The outbound `OnlineUser` payload of `ReportNodeOnlineUsers`; the Go
`map[int][]string` is a total function (absent key = nil slice = `[]`). -/
structure OnlineUser where
  NodeID : Int
  UserNodeMap : Int → List String

/-- The payload construction of `ReportNodeOnlineUsers` (airgo.go lines
352-360): `onlineUser.UserNodeMap[v.UID] = append(..., v.IP)` over the
observations in order. -/
def ReportNodeOnlineUsers (c : APIClient) (onlineUserList : List OnlineUserObs) :
    OnlineUser :=
  { NodeID := c.NodeID
    UserNodeMap :=
      onlineUserList.foldl
        (fun m v => fun uid => if uid = v.UID then m uid ++ [v.IP] else m uid)
        (fun _ => []) }

/-! ### Concrete inputs used by counterexamples and witnesses -/

/-- A session with all defaults zero (fresh `APIClient` with zero config). -/
def cDefault : APIClient := {}

/-- A vless node descriptor with security mode `"reality"`. -/
def nVlessReality : NodeInfoResponse :=
  { Protocol := "vless", Security := "reality", Sni := "example.com",
    Dest := "dest.example.com:443", PrivateKey := "pk" }

/-- A shadowsocks node descriptor with security mode `"reality"`. -/
def nShadowsocksReality : NodeInfoResponse :=
  { Protocol := "shadowsocks", Security := "reality", Sni := "example.com" }

/-- A node descriptor whose protocol is the all-uppercase spelling. -/
def nUppercaseVless : NodeInfoResponse := { Protocol := "VLESS" }

/-- A vless descriptor on tcp transport with http camouflage. -/
def nVlessTcpHttp : NodeInfoResponse :=
  { Protocol := "vless", Network := "tcp", Type' := "http",
    Path := "/p", Host := "h.example.com" }

/-! ### Helper lemmas on the translator -/

theorem vlessNodeInfo_eq (c : APIClient) (n : NodeInfoResponse) :
    vlessNodeInfo c n =
      { EnableVless := true
        VlessFlow := n.VlessFlow
        NodeType := c.NodeType
        NodeID := c.NodeID
        Port := uint32OfNat n.Port
        SpeedLimit := parseSpeedLimit c n
        TransportProtocol := n.Network
        EnableTLS := parseEnableTLS n
        Path := n.Path
        Host := n.Host
        ServiceName := n.ServiceName
        EnableREALITY := parseEnableREALITY n
        REALITYConfig := some (parseRealityConfig n)
        Header :=
          if n.Network == "tcp" && n.Type' == "http" then
            some (mkCamouflageHeader n.Path n.Host)
          else none } := by
  unfold vlessNodeInfo
  split_ifs <;> rfl

theorem vmessNodeInfo_eq (c : APIClient) (n : NodeInfoResponse) :
    vmessNodeInfo c n =
      { EnableVless := false
        NodeType := c.NodeType
        NodeID := c.NodeID
        Port := uint32OfNat n.Port
        SpeedLimit := parseSpeedLimit c n
        AlterID := 0
        TransportProtocol := n.Network
        EnableTLS := parseEnableTLS n
        Path := n.Path
        Host := n.Host
        CypherMethod := n.Scy
        ServiceName := n.ServiceName
        EnableREALITY := parseEnableREALITY n
        REALITYConfig := none
        Header :=
          if n.Network == "tcp" && n.Type' == "http" then
            some (mkCamouflageHeader n.Path n.Host)
          else none } := by
  unfold vmessNodeInfo
  split_ifs <;> rfl

theorem shadowsocksNodeInfo_eq (c : APIClient) (n : NodeInfoResponse) :
    shadowsocksNodeInfo c n =
      { NodeType := c.NodeType
        NodeID := c.NodeID
        Port := uint32OfNat n.Port
        SpeedLimit := parseSpeedLimit c n
        TransportProtocol := "tcp"
        CypherMethod := n.Scy
        ServerKey := n.ServerKey
        EnableTLS := false
        EnableREALITY := false
        REALITYConfig := none
        Header :=
          if n.Type' == "http" then
            some (mkCamouflageHeader n.Path n.Host)
          else none } := by
  unfold shadowsocksNodeInfo
  split_ifs <;> rfl

theorem parseEnableTLS_eq_true (n : NodeInfoResponse) :
    parseEnableTLS n = true ↔ ¬(n.Security = "none" ∨ n.Security = "") := by
  unfold parseEnableTLS
  split_ifs with h <;> simp_all

theorem parseEnableREALITY_eq_true (n : NodeInfoResponse) :
    parseEnableREALITY n = true ↔ n.Security = "reality" := by
  simp [parseEnableREALITY]

theorem parse_fst_vless (c : APIClient) (n : NodeInfoResponse)
    (h : n.Protocol = "vless" ∨ n.Protocol = "Vless") :
    (ParseAirGoNodeInfo c n).1 = vlessNodeInfo c n := by
  unfold ParseAirGoNodeInfo
  rcases h with h | h <;> simp [h]

theorem parse_fst_vmess (c : APIClient) (n : NodeInfoResponse)
    (h : n.Protocol = "vmess" ∨ n.Protocol = "Vmess") :
    (ParseAirGoNodeInfo c n).1 = vmessNodeInfo c n := by
  unfold ParseAirGoNodeInfo
  rcases h with h | h <;> simp [h]

theorem parse_fst_shadowsocks (c : APIClient) (n : NodeInfoResponse)
    (h : n.Protocol = "shadowsocks" ∨ n.Protocol = "Shadowsocks") :
    (ParseAirGoNodeInfo c n).1 = shadowsocksNodeInfo c n := by
  unfold ParseAirGoNodeInfo
  rcases h with h | h <;> simp [h]

theorem parse_fst_default (c : APIClient) (n : NodeInfoResponse)
    (h : n.Protocol ∉
      (["vless", "Vless", "vmess", "Vmess", "shadowsocks", "Shadowsocks"] :
        List String)) :
    (ParseAirGoNodeInfo c n).1 = {} := by
  unfold ParseAirGoNodeInfo
  simp only [List.mem_cons, List.not_mem_nil, or_false, not_or] at h
  obtain ⟨h1, h2, h3, h4, h5, h6⟩ := h
  simp [h1, h2, h3, h4, h5, h6]

/-! ### Claims -/

/-- C10: `ParseAirGoNodeInfo` returns a nil error on every input; its only
return statement is `return &nodeInfo, nil`, so node mapping can never be
the source of a decode/validation failure. -/
theorem parseAirGoNodeInfo_never_errors (c : APIClient) (n : NodeInfoResponse) :
    (ParseAirGoNodeInfo c n).2 = none := rfl

/-- C1 counterexample: the descriptor with protocol `"vless"` and security
`"reality"` yields an output with `EnableTLS = true` *and*
`EnableREALITY = true`, so the two security flags are not exclusive. -/
theorem tls_and_reality_both_true_on_vless_reality :
    (ParseAirGoNodeInfo cDefault nVlessReality).1.EnableTLS = true ∧
    (ParseAirGoNodeInfo cDefault nVlessReality).1.EnableREALITY = true := by
  decide

/-- C1 amended: `EnableTLS` and `EnableREALITY` are computed independently —
the output has both flags true exactly when the security mode is `"reality"`
and the protocol is one of the vless/vmess spellings (only `"none"`/`""`
forces TLS off, and shadowsocks/unrecognized protocols leave both false). -/
theorem tls_reality_coexistence (c : APIClient) (n : NodeInfoResponse) :
    ((ParseAirGoNodeInfo c n).1.EnableTLS = true ∧
      (ParseAirGoNodeInfo c n).1.EnableREALITY = true) ↔
    (n.Security = "reality" ∧
      (n.Protocol = "vless" ∨ n.Protocol = "Vless" ∨
        n.Protocol = "vmess" ∨ n.Protocol = "Vmess")) := by
  by_cases h1 : n.Protocol = "vless" ∨ n.Protocol = "Vless"
  · rw [parse_fst_vless c n h1, vlessNodeInfo_eq]
    simp only [parseEnableTLS_eq_true, parseEnableREALITY_eq_true]
    constructor
    · rintro ⟨_, hr⟩
      exact ⟨hr, by tauto⟩
    · rintro ⟨hr, _⟩
      exact ⟨by rw [hr]; rintro (h | h) <;> simp_all, hr⟩
  by_cases h2 : n.Protocol = "vmess" ∨ n.Protocol = "Vmess"
  · rw [parse_fst_vmess c n h2, vmessNodeInfo_eq]
    simp only [parseEnableTLS_eq_true, parseEnableREALITY_eq_true]
    constructor
    · rintro ⟨_, hr⟩
      exact ⟨hr, by tauto⟩
    · rintro ⟨hr, _⟩
      exact ⟨by rw [hr]; rintro (h | h) <;> simp_all, hr⟩
  by_cases h3 : n.Protocol = "shadowsocks" ∨ n.Protocol = "Shadowsocks"
  · rw [parse_fst_shadowsocks c n h3, shadowsocksNodeInfo_eq]
    simp only []
    constructor
    · rintro ⟨hT, _⟩
      exact absurd hT (by simp)
    · rintro ⟨_, hp⟩
      exact absurd hp (by tauto)
  · rw [parse_fst_default c n (by simp only [List.mem_cons]; tauto)]
    constructor
    · rintro ⟨hT, _⟩
      exact absurd hT (by simp [NodeInfo.EnableTLS])
    · rintro ⟨_, hp⟩
      exact absurd hp (by tauto)

/-- C1 amended, witness: the coexistence characterization applied at the
concrete vless descriptor with security `"reality"`. -/
theorem tls_reality_coexistence_witness :
    (ParseAirGoNodeInfo cDefault nVlessReality).1.EnableTLS = true ∧
    (ParseAirGoNodeInfo cDefault nVlessReality).1.EnableREALITY = true :=
  (tls_reality_coexistence cDefault nVlessReality).mpr ⟨rfl, Or.inl rfl⟩

/-- C2 counterexample: a shadowsocks descriptor with security `"reality"`
yields `EnableREALITY = false` — the reality branch's flag never reaches the
shadowsocks output, so "for each recognized protocol the output has
EnableREALITY=true" fails. -/
theorem shadowsocks_reality_not_enabled :
    (ParseAirGoNodeInfo cDefault nShadowsocksReality).1.EnableREALITY = false := by
  decide

/-- C2 amended: security `"none"`/`""` disables both flags for every
protocol; security `"reality"` gives `EnableREALITY = true` with the full
REALITY configuration only for the vless spellings, gives
`EnableREALITY = true` but *no* attached REALITY configuration for the vmess
spellings, and is ignored entirely by the shadowsocks spellings. -/
theorem security_mode_resolution (c : APIClient) (n : NodeInfoResponse) :
    ((n.Security = "none" ∨ n.Security = "") →
      (ParseAirGoNodeInfo c n).1.EnableTLS = false ∧
      (ParseAirGoNodeInfo c n).1.EnableREALITY = false) ∧
    (n.Security = "reality" →
      ((n.Protocol = "vless" ∨ n.Protocol = "Vless") →
        (ParseAirGoNodeInfo c n).1.EnableREALITY = true ∧
        (ParseAirGoNodeInfo c n).1.REALITYConfig =
          some { Dest := n.Dest
                 ProxyProtocolVer := 0
                 ServerNames := [n.Sni]
                 PrivateKey := n.PrivateKey
                 MinClientVer := ""
                 MaxClientVer := ""
                 MaxTimeDiff := 0
                 ShortIds := ["", "0123456789abcdef"] }) ∧
      ((n.Protocol = "vmess" ∨ n.Protocol = "Vmess") →
        (ParseAirGoNodeInfo c n).1.EnableREALITY = true ∧
        (ParseAirGoNodeInfo c n).1.REALITYConfig = none) ∧
      ((n.Protocol = "shadowsocks" ∨ n.Protocol = "Shadowsocks") →
        (ParseAirGoNodeInfo c n).1.EnableREALITY = false)) := by
  constructor
  · intro hs
    have hT : parseEnableTLS n = false := by
      unfold parseEnableTLS
      rcases hs with h | h <;> simp [h]
    have hR : parseEnableREALITY n = false := by
      unfold parseEnableREALITY
      rcases hs with h | h <;> simp [h]
    by_cases h1 : n.Protocol = "vless" ∨ n.Protocol = "Vless"
    · rw [parse_fst_vless c n h1, vlessNodeInfo_eq]
      exact ⟨hT, hR⟩
    by_cases h2 : n.Protocol = "vmess" ∨ n.Protocol = "Vmess"
    · rw [parse_fst_vmess c n h2, vmessNodeInfo_eq]
      exact ⟨hT, hR⟩
    by_cases h3 : n.Protocol = "shadowsocks" ∨ n.Protocol = "Shadowsocks"
    · rw [parse_fst_shadowsocks c n h3, shadowsocksNodeInfo_eq]
      exact ⟨rfl, rfl⟩
    · rw [parse_fst_default c n (by simp only [List.mem_cons]; tauto)]
      exact ⟨rfl, rfl⟩
  · intro hs
    refine ⟨?_, ?_, ?_⟩
    · intro h1
      rw [parse_fst_vless c n h1, vlessNodeInfo_eq]
      refine ⟨by simp [parseEnableREALITY, hs], ?_⟩
      simp [parseRealityConfig, hs]
    · intro h2
      rw [parse_fst_vmess c n h2, vmessNodeInfo_eq]
      exact ⟨by simp [parseEnableREALITY, hs], rfl⟩
    · intro h3
      rw [parse_fst_shadowsocks c n h3, shadowsocksNodeInfo_eq]

/-- C2 amended, witness: the resolution rule applied at the concrete vless
descriptor with security `"reality"`. -/
theorem security_mode_resolution_witness :
    (ParseAirGoNodeInfo cDefault nVlessReality).1.EnableREALITY = true ∧
    (ParseAirGoNodeInfo cDefault nVlessReality).1.REALITYConfig =
      some { Dest := "dest.example.com:443"
             ProxyProtocolVer := 0
             ServerNames := ["example.com"]
             PrivateKey := "pk"
             MinClientVer := ""
             MaxClientVer := ""
             MaxTimeDiff := 0
             ShortIds := ["", "0123456789abcdef"] } :=
  ((security_mode_resolution cDefault nVlessReality).2 rfl).1 (Or.inl rfl)

/-- C3 counterexample: the all-uppercase spelling `"VLESS"` is not
recognized — the dispatch is an exact string match, not case-insensitive —
so it falls to the default case and yields the zero-value configuration
(in particular `EnableVless = false`, not the vless shape). -/
theorem uppercase_vless_not_recognized :
    (ParseAirGoNodeInfo cDefault nUppercaseVless).1 = ({} : NodeInfo) ∧
    (ParseAirGoNodeInfo cDefault nUppercaseVless).1.EnableVless = false := by
  decide

/-- C3 amended: the protocol dispatch matches the six exact literals
`vless`/`Vless`/`vmess`/`Vmess`/`shadowsocks`/`Shadowsocks`; each produces
the corresponding shape, while every other string (any other capitalization
included) yields the zero-value configuration with a nil error. -/
theorem protocol_dispatch_exact_match (c : APIClient) (n : NodeInfoResponse) :
    ((n.Protocol = "vless" ∨ n.Protocol = "Vless") →
      (ParseAirGoNodeInfo c n).1.EnableVless = true ∧
      (ParseAirGoNodeInfo c n).1.VlessFlow = n.VlessFlow ∧
      (ParseAirGoNodeInfo c n).1.TransportProtocol = n.Network) ∧
    ((n.Protocol = "vmess" ∨ n.Protocol = "Vmess") →
      (ParseAirGoNodeInfo c n).1.EnableVless = false ∧
      (ParseAirGoNodeInfo c n).1.AlterID = 0 ∧
      (ParseAirGoNodeInfo c n).1.CypherMethod = n.Scy ∧
      (ParseAirGoNodeInfo c n).1.TransportProtocol = n.Network) ∧
    ((n.Protocol = "shadowsocks" ∨ n.Protocol = "Shadowsocks") →
      (ParseAirGoNodeInfo c n).1.TransportProtocol = "tcp" ∧
      (ParseAirGoNodeInfo c n).1.CypherMethod = n.Scy ∧
      (ParseAirGoNodeInfo c n).1.ServerKey = n.ServerKey) ∧
    (n.Protocol ∉
        (["vless", "Vless", "vmess", "Vmess", "shadowsocks", "Shadowsocks"] :
          List String) →
      ParseAirGoNodeInfo c n = ({}, none)) := by
  refine ⟨?_, ?_, ?_, ?_⟩
  · intro h1
    rw [parse_fst_vless c n h1, vlessNodeInfo_eq]
    exact ⟨rfl, rfl, rfl⟩
  · intro h2
    rw [parse_fst_vmess c n h2, vmessNodeInfo_eq]
    exact ⟨rfl, rfl, rfl, rfl⟩
  · intro h3
    rw [parse_fst_shadowsocks c n h3, shadowsocksNodeInfo_eq]
    exact ⟨rfl, rfl, rfl⟩
  · intro h4
    have hfst := parse_fst_default c n h4
    have hsnd := parseAirGoNodeInfo_never_errors c n
    exact Prod.ext hfst hsnd

/-- C3 amended, witness: exact-match dispatch applied at the concrete
lowercase vless descriptor. -/
theorem protocol_dispatch_exact_match_witness :
    (ParseAirGoNodeInfo cDefault nVlessTcpHttp).1.EnableVless = true ∧
    (ParseAirGoNodeInfo cDefault nVlessTcpHttp).1.VlessFlow = "" ∧
    (ParseAirGoNodeInfo cDefault nVlessTcpHttp).1.TransportProtocol = "tcp" :=
  (protocol_dispatch_exact_match cDefault nVlessTcpHttp).1 (Or.inl rfl)

/-- C5: every shadowsocks descriptor — whatever its network and security
mode — maps to transport `"tcp"`, carries the cipher method and server key,
and leaves TLS and REALITY fully unpopulated. -/
theorem shadowsocks_forces_tcp_ignores_security (c : APIClient)
    (n : NodeInfoResponse)
    (h : n.Protocol = "shadowsocks" ∨ n.Protocol = "Shadowsocks") :
    (ParseAirGoNodeInfo c n).1.TransportProtocol = "tcp" ∧
    (ParseAirGoNodeInfo c n).1.CypherMethod = n.Scy ∧
    (ParseAirGoNodeInfo c n).1.ServerKey = n.ServerKey ∧
    (ParseAirGoNodeInfo c n).1.EnableTLS = false ∧
    (ParseAirGoNodeInfo c n).1.EnableREALITY = false ∧
    (ParseAirGoNodeInfo c n).1.REALITYConfig = none := by
  rw [parse_fst_shadowsocks c n h, shadowsocksNodeInfo_eq]
  exact ⟨rfl, rfl, rfl, rfl, rfl, rfl⟩

/-- C5 witness: the shadowsocks rule applied at the concrete descriptor
whose security mode is `"reality"` — the security mode is indeed ignored. -/
theorem shadowsocks_forces_tcp_ignores_security_witness :
    (ParseAirGoNodeInfo cDefault nShadowsocksReality).1.TransportProtocol =
      "tcp" ∧
    (ParseAirGoNodeInfo cDefault nShadowsocksReality).1.CypherMethod = "" ∧
    (ParseAirGoNodeInfo cDefault nShadowsocksReality).1.ServerKey = "" ∧
    (ParseAirGoNodeInfo cDefault nShadowsocksReality).1.EnableTLS = false ∧
    (ParseAirGoNodeInfo cDefault nShadowsocksReality).1.EnableREALITY = false ∧
    (ParseAirGoNodeInfo cDefault nShadowsocksReality).1.REALITYConfig = none :=
  shadowsocks_forces_tcp_ignores_security cDefault nShadowsocksReality
    (Or.inl rfl)

theorem ite_header_ne_none {cond : Bool} {hdr : HttpHeader} :
    ((if cond then some hdr else none) ≠ none) ↔ cond = true := by
  cases cond <;> simp

theorem camoCond_eq_true (n : NodeInfoResponse) :
    ((n.Network == "tcp" && n.Type' == "http") = true) ↔
      (n.Network = "tcp" ∧ n.Type' = "http") := by
  simp [Bool.and_eq_true]

theorem grpc_beq_tcp : (("grpc" : String) == "tcp") = false := rfl

theorem ws_beq_tcp : (("ws" : String) == "tcp") = false := rfl

/-- C4: the camouflage header is present iff the *output* transport is
`"tcp"` and the camouflage type is `"http"`; for the vless/vmess spellings
the networks `"grpc"`/`"ws"` never yield a header, while shadowsocks checks
the camouflage type unconditionally; a present header is exactly the
`{type: "http", request: {path: [Path], headers: {Host: [Host]}}}` blob. -/
theorem camouflage_header_charac (c : APIClient) (n : NodeInfoResponse) :
    (((ParseAirGoNodeInfo c n).1.Header ≠ none) ↔
      ((ParseAirGoNodeInfo c n).1.TransportProtocol = "tcp" ∧
        n.Type' = "http")) ∧
    ((n.Protocol = "vless" ∨ n.Protocol = "Vless" ∨
        n.Protocol = "vmess" ∨ n.Protocol = "Vmess") →
      (n.Network = "grpc" ∨ n.Network = "ws") →
      (ParseAirGoNodeInfo c n).1.Header = none) ∧
    ((n.Protocol = "shadowsocks" ∨ n.Protocol = "Shadowsocks") →
      (((ParseAirGoNodeInfo c n).1.Header ≠ none) ↔ n.Type' = "http")) ∧
    (∀ hd, (ParseAirGoNodeInfo c n).1.Header = some hd →
      hd = mkCamouflageHeader n.Path n.Host) := by
  refine ⟨?_, ?_, ?_, ?_⟩
  · by_cases h1 : n.Protocol = "vless" ∨ n.Protocol = "Vless"
    · rw [parse_fst_vless c n h1, vlessNodeInfo_eq]
      simp [ite_header_ne_none, camoCond_eq_true]
    by_cases h2 : n.Protocol = "vmess" ∨ n.Protocol = "Vmess"
    · rw [parse_fst_vmess c n h2, vmessNodeInfo_eq]
      simp [ite_header_ne_none, camoCond_eq_true]
    by_cases h3 : n.Protocol = "shadowsocks" ∨ n.Protocol = "Shadowsocks"
    · rw [parse_fst_shadowsocks c n h3, shadowsocksNodeInfo_eq]
      simp [ite_header_ne_none]
    · rw [parse_fst_default c n (by simp only [List.mem_cons]; tauto)]
      simp [NodeInfo.Header, NodeInfo.TransportProtocol]
      exact fun h => absurd h (by decide)
  · intro hp hn
    have hcond : (n.Network == "tcp" && n.Type' == "http") = false := by
      rcases hn with hn | hn <;>
        simp [hn, grpc_beq_tcp, ws_beq_tcp]
    rcases hp with h | h | h | h
    · rw [parse_fst_vless c n (Or.inl h), vlessNodeInfo_eq]
      simp [hcond]
    · rw [parse_fst_vless c n (Or.inr h), vlessNodeInfo_eq]
      simp [hcond]
    · rw [parse_fst_vmess c n (Or.inl h), vmessNodeInfo_eq]
      simp [hcond]
    · rw [parse_fst_vmess c n (Or.inr h), vmessNodeInfo_eq]
      simp [hcond]
  · intro h3
    rw [parse_fst_shadowsocks c n h3, shadowsocksNodeInfo_eq]
    simp [ite_header_ne_none]
  · intro hd hhd
    by_cases h1 : n.Protocol = "vless" ∨ n.Protocol = "Vless"
    · rw [parse_fst_vless c n h1, vlessNodeInfo_eq] at hhd
      split_ifs at hhd with hc
      exact (Option.some.inj hhd).symm
    by_cases h2 : n.Protocol = "vmess" ∨ n.Protocol = "Vmess"
    · rw [parse_fst_vmess c n h2, vmessNodeInfo_eq] at hhd
      split_ifs at hhd with hc
      exact (Option.some.inj hhd).symm
    by_cases h3 : n.Protocol = "shadowsocks" ∨ n.Protocol = "Shadowsocks"
    · rw [parse_fst_shadowsocks c n h3, shadowsocksNodeInfo_eq] at hhd
      split_ifs at hhd with hc
      exact (Option.some.inj hhd).symm
    · rw [parse_fst_default c n (by simp only [List.mem_cons]; tauto)] at hhd
      exact absurd hhd (by simp [NodeInfo.Header])

/-- C4 witness: the characterization applied at the concrete vless
descriptor on tcp transport with http camouflage — the header is present. -/
theorem camouflage_header_charac_witness :
    (ParseAirGoNodeInfo cDefault nVlessTcpHttp).1.Header ≠ none :=
  (camouflage_header_charac cDefault nVlessTcpHttp).1.mpr ⟨rfl, rfl⟩

/-- C6: the speed-limit resolution — override when positive, else default,
through `floor(L * 1e6 / 8)` (truncation toward zero on these nonnegative
values) — is shared by the node mapping and the per-user mapping, with the
spec's two numeric examples.  Floats are modelled as exact rationals. -/
theorem speed_limit_resolution :
    (∀ (l : Int) (d : Rat), 0 < l →
      calculateSpeedLimit l d = (⌊(l : Rat) * 1000000 / 8⌋).toNat) ∧
    (∀ (l : Int) (d : Rat), l ≤ 0 →
      calculateSpeedLimit l d = (⌊d * 1000000 / 8⌋).toNat) ∧
    (∀ (c : APIClient) (n : NodeInfoResponse),
      n.Protocol ∈
        (["vless", "Vless", "vmess", "Vmess", "shadowsocks", "Shadowsocks"] :
          List String) →
      (ParseAirGoNodeInfo c n).1.SpeedLimit =
        if 0 < n.NodeSpeedLimit then
          (⌊n.NodeSpeedLimit * 1000000 / 8⌋).toNat
        else
          (⌊c.SpeedLimit * 1000000 / 8⌋).toNat) ∧
    (∀ (c : APIClient) (v : UserResponse),
      (userInfoOfResponse c v).SpeedLimit =
        calculateSpeedLimit v.NodeSpeedLimit c.SpeedLimit) ∧
    calculateSpeedLimit 100 0 = 12500000 ∧
    calculateSpeedLimit 0 50 = 6250000 := by
  refine ⟨?_, ?_, ?_, fun c v => rfl, ?_, ?_⟩
  · intro l d h
    rw [calculateSpeedLimit, if_pos h]
    rfl
  · intro l d h
    rw [calculateSpeedLimit, if_neg (by omega)]
    rfl
  · intro c n h
    simp only [List.mem_cons, List.not_mem_nil, or_false] at h
    rcases h with h | h | h | h | h | h
    · rw [parse_fst_vless c n (Or.inl h), vlessNodeInfo_eq]; rfl
    · rw [parse_fst_vless c n (Or.inr h), vlessNodeInfo_eq]; rfl
    · rw [parse_fst_vmess c n (Or.inl h), vmessNodeInfo_eq]; rfl
    · rw [parse_fst_vmess c n (Or.inr h), vmessNodeInfo_eq]; rfl
    · rw [parse_fst_shadowsocks c n (Or.inl h), shadowsocksNodeInfo_eq]; rfl
    · rw [parse_fst_shadowsocks c n (Or.inr h), shadowsocksNodeInfo_eq]; rfl
  · norm_num [calculateSpeedLimit, uint64OfRat]
    rfl
  · norm_num [calculateSpeedLimit, uint64OfRat]
    rfl

/-- C6 witness: the positive-override rule applied at override 100 mbps. -/
theorem speed_limit_resolution_witness :
    calculateSpeedLimit 100 0 = (⌊((100 : Int) : Rat) * 1000000 / 8⌋).toNat :=
  speed_limit_resolution.1 100 0 (by decide)

theorem storeETag_ne (e : List (String × String)) (k v : String)
    (h : v ≠ lookupETag e k) : storeETag e k v ≠ e := by
  induction e with
  | nil => simp [storeETag]
  | cons hd tl ih =>
    obtain ⟨k', v'⟩ := hd
    by_cases hk : k' = k
    · subst hk
      rw [lookupETag, if_pos rfl] at h
      rw [storeETag, if_pos rfl]
      intro hc
      obtain ⟨h1, -⟩ := List.cons.inj hc
      exact h (congrArg Prod.snd h1)
    · rw [lookupETag, if_neg hk] at h
      rw [storeETag, if_neg hk]
      intro hc
      obtain ⟨-, h2⟩ := List.cons.inj hc
      exact ih h h2

/-- C7: the validator-token table mutates only on a non-empty token that
differs from the stored one (`updateETag` is a no-op exactly when the
response token is empty or equal), and a 304 fetch returns the
`NodeNotModified` sentinel with the session — the table included —
completely unchanged. -/
theorem etag_cache_invariant :
    (∀ (eTags : List (String × String)) (etag key : String),
      updateETag eTags etag key = eTags ↔
        (etag = "" ∨ etag = lookupETag eTags key)) ∧
    (∀ (c : APIClient) (res : RestyResponse NodeInfoResponse),
      res.statusCode = 304 →
      GetNodeInfo c res = (c, .error NodeNotModified)) := by
  constructor
  · intro eTags etag key
    unfold updateETag
    split_ifs with h
    · obtain ⟨h1, h2⟩ := h
      constructor
      · intro hc
        exact absurd hc (storeETag_ne eTags key etag h2)
      · intro hc
        tauto
    · rw [not_and_or, not_not, not_not] at h
      tauto
  · intro c res h
    unfold GetNodeInfo
    rw [if_pos h]

/-- C7 witness: an empty response token leaves a concrete table unchanged,
and a concrete 304 response returns the sentinel with the session intact. -/
theorem etag_cache_invariant_witness :
    updateETag [("node", "abc")] "" "node" = [("node", "abc")] ∧
    GetNodeInfo cDefault
        { statusCode := 304, etag := "", body := none } =
      (cDefault, .error NodeNotModified) :=
  ⟨(etag_cache_invariant.1 [("node", "abc")] "" "node").mpr (Or.inl rfl),
    etag_cache_invariant.2 cDefault
      { statusCode := 304, etag := "", body := none } rfl⟩

/-- C8: the user-list translation is a pure, order-preserving, one-to-one
map: same length, and the i-th record copies id/UUID/username/password and
the device limit from the i-th descriptor, with the speed limit resolved by
`calculateSpeedLimit` (per-user override else session default). -/
theorem user_list_translation (c : APIClient) (users : List UserResponse) :
    (mapUserList c users).length = users.length ∧
    ∀ i : Nat,
      (mapUserList c users)[i]? =
        (users[i]?).map (fun v =>
          { UID := v.ID
            UUID := v.UUID
            Email := v.UserName
            Passwd := v.Passwd
            SpeedLimit := calculateSpeedLimit v.NodeSpeedLimit c.SpeedLimit
            DeviceLimit := v.NodeConnector }) := by
  refine ⟨by simp [mapUserList], fun i => ?_⟩
  simp only [mapUserList, List.getElem?_map]
  rfl

theorem foldl_userNodeMap (l : List OnlineUserObs) (m : Int → List String)
    (uid : Int) :
    (l.foldl
        (fun m v => fun u => if u = v.UID then m u ++ [v.IP] else m u) m) uid =
      m uid ++ (l.filter (fun v => v.UID == uid)).map OnlineUserObs.IP := by
  induction l generalizing m with
  | nil => simp
  | cons v tl ih =>
    rw [List.foldl_cons, ih, List.filter_cons]
    by_cases hv : v.UID = uid
    · simp [hv]
    · have huid : ¬(uid = v.UID) := fun hc => hv hc.symm
      simp [hv, huid]

/-- C9: `ReportNodeOnlineUsers` groups the observations into a map from user
id to that user's IPs in observation order, duplicates preserved; in
particular the spec's example yields `{1: ["1.1.1.1","1.1.1.1"],
2: ["2.2.2.2"]}` and nothing for any other user. -/
theorem online_users_grouping :
    (∀ (c : APIClient) (l : List OnlineUserObs) (uid : Int),
      (ReportNodeOnlineUsers c l).UserNodeMap uid =
        (l.filter (fun v => v.UID == uid)).map OnlineUserObs.IP) ∧
    (∀ (c : APIClient) (l : List OnlineUserObs),
      (ReportNodeOnlineUsers c l).NodeID = c.NodeID) ∧
    (ReportNodeOnlineUsers cDefault
        [⟨1, "1.1.1.1"⟩, ⟨1, "1.1.1.1"⟩, ⟨2, "2.2.2.2"⟩]).UserNodeMap 1 =
      ["1.1.1.1", "1.1.1.1"] ∧
    (ReportNodeOnlineUsers cDefault
        [⟨1, "1.1.1.1"⟩, ⟨1, "1.1.1.1"⟩, ⟨2, "2.2.2.2"⟩]).UserNodeMap 2 =
      ["2.2.2.2"] ∧
    (ReportNodeOnlineUsers cDefault
        [⟨1, "1.1.1.1"⟩, ⟨1, "1.1.1.1"⟩, ⟨2, "2.2.2.2"⟩]).UserNodeMap 3 =
      [] := by
  refine ⟨?_, fun c l => rfl, by decide, by decide, by decide⟩
  intro c l uid
  unfold ReportNodeOnlineUsers
  exact (foldl_userNodeMap l (fun _ => []) uid).trans (by simp)

end AirGo
